import Mathlib

/-!
Shallow embedding of the task-management backend's core controllers
(`projectController.js`, `taskController.js`, the auth/user controllers)
and proofs about their authorization and update behaviour.

Modelling conventions:
* Mongo ObjectIds are modelled as `Nat`; the JS code compares them via
  `toString()` equality or `Array.includes`, both of which are id equality,
  so `Nat` equality is the faithful image.
* A raw request id (`req.params.id`) is a `RawId`: either a parseable id or
  a malformed string.  `mongoose.Types.ObjectId.isValid` is true exactly on
  the parseable ones.
* The document store is an explicit list of documents; `findById` is
  `List.find?` on the id, `save` replaces the document with the same id.
* Each controller returns `Except ApiError result`; an error return
  performs no save, which the `...After` helpers make explicit.
* JavaScript merge-patch assignments `field || current` keep the current
  value when the patch value is absent (`none`) or an empty string (both
  falsy in JS); `jsOrStr` / `jsOrOptStr` encode exactly that.
-/

namespace GestionTareas

abbrev UserId := Nat
abbrev ProjectId := Nat
abbrev TaskId := Nat

/-- The failure taxonomy of the controllers: 400 for malformed ids and
duplicate members/identities, 403, 404, and 500 for an exception that
reaches a controller's catch block. -/
inductive ApiError where
  | ValidationError
  | NotFound
  | Forbidden
  | DuplicateMember
  | DuplicateIdentity
  | InfrastructureError
deriving DecidableEq, Repr

/-- A Project document as stored (`models/Project`): name, description,
status, dates, an owner id and a list of member ids. -/
structure Project where
  id : ProjectId
  name : String
  description : String
  status : String
  startDate : Option String
  endDate : Option String
  owner : UserId
  members : List UserId
deriving DecidableEq, Repr

/-- An embedded task comment: `task.comments.push(\x7b text, author \x7d)`. -/
structure Comment where
  text : String
  author : UserId
deriving DecidableEq, Repr

/-- A Task document as stored (`models/Task`). -/
structure Task where
  id : TaskId
  title : String
  description : String
  status : String
  priority : String
  dueDate : Option String
  assignedTo : Option UserId
  project : ProjectId
  createdBy : UserId
  comments : List Comment
deriving DecidableEq, Repr

/-- A User document as stored (`models/User`). -/
structure User where
  id : UserId
  username : String
  email : String
  password : String
  firstName : String
  lastName : String
  role : String
deriving DecidableEq, Repr

/-- A raw id taken from the URL: either parseable as an ObjectId or not.
`mongoose.Types.ObjectId.isValid` distinguishes the two. -/
inductive RawId where
  | valid : Nat → RawId
  | malformed : String → RawId
deriving DecidableEq, Repr

/-- `Project.findById` / `Task.findById`: first document with that id. -/
def findProject (projects : List Project) (pid : ProjectId) : Option Project :=
  projects.find? (fun p => p.id == pid)

def findTask (tasks : List Task) (tid : TaskId) : Option Task :=
  tasks.find? (fun t => t.id == tid)

/-- `document.save()`: replace the stored document carrying the same id. -/
def saveProject (projects : List Project) (p : Project) : List Project :=
  projects.map (fun q => if q.id == p.id then p else q)

def saveTask (tasks : List Task) (t : Task) : List Task :=
  tasks.map (fun u => if u.id == t.id then t else u)

/-- JS `patchValue || current` for a string field: `none` (absent) and the
empty string are falsy and keep the current value. -/
def jsOrStr : Option String → String → String
  | none, cur => cur
  | some s, cur => if s = "" then cur else s

/-- Same falsy rule when the stored field is itself optional. -/
def jsOrOptStr : Option String → Option String → Option String
  | none, cur => cur
  | some s, cur => if s = "" then cur else some s

/-- `getProjectById` (projectController.js): 400 when the id is malformed,
404 when no project has the id, 403 when the requester is neither the
owner nor a member, otherwise the project. -/
def getProjectById (projects : List Project) (rawId : RawId) (uid : UserId) :
    Except ApiError Project :=
  match rawId with
  | .malformed _ => .error .ValidationError
  | .valid pid =>
    match findProject projects pid with
    | none => .error .NotFound
    | some project =>
      if !(project.owner == uid) && !(project.members.contains uid) then
        .error .Forbidden
      else
        .ok project

/-- The body of a project update request (all fields optional). -/
structure ProjectPatch where
  name : Option String
  description : Option String
  status : Option String
  startDate : Option String
  endDate : Option String
  members : Option (List UserId)
deriving DecidableEq, Repr

/-- `updateProject`: 404 when absent, 403 unless the requester is the
owner, otherwise merge-patch each field with `||` and save.  A supplied
`members` array is truthy even when empty, so it replaces the member set
wholesale. -/
def updateProject (projects : List Project) (pid : ProjectId) (uid : UserId)
    (patch : ProjectPatch) : Except ApiError (List Project × Project) :=
  match findProject projects pid with
  | none => .error .NotFound
  | some project =>
    if !(project.owner == uid) then .error .Forbidden
    else
      let updated : Project :=
        { project with
          name := jsOrStr patch.name project.name
          description := jsOrStr patch.description project.description
          status := jsOrStr patch.status project.status
          startDate := jsOrOptStr patch.startDate project.startDate
          endDate := jsOrOptStr patch.endDate project.endDate
          members := patch.members.getD project.members }
      .ok (saveProject projects updated, updated)

/-- `deleteProject`: 404 when absent, 403 unless owner, otherwise the
document is removed (`project.deleteOne()`). -/
def deleteProject (projects : List Project) (pid : ProjectId) (uid : UserId) :
    Except ApiError (List Project) :=
  match findProject projects pid with
  | none => .error .NotFound
  | some project =>
    if !(project.owner == uid) then .error .Forbidden
    else .ok (projects.filter (fun q => !(q.id == pid)))

/-- `addProjectMember`: 404 when absent, 403 unless owner, 400 when the
user is already a member, otherwise push the user onto `members` and
save. -/
def addProjectMember (projects : List Project) (pid : ProjectId) (uid : UserId)
    (newMember : UserId) : Except ApiError (List Project × Project) :=
  match findProject projects pid with
  | none => .error .NotFound
  | some project =>
    if !(project.owner == uid) then .error .Forbidden
    else if project.members.contains newMember then .error .DuplicateMember
    else
      let updated := { project with members := project.members ++ [newMember] }
      .ok (saveProject projects updated, updated)

/-- `removeProjectMember`: 404 when absent, 403 unless owner, otherwise
filter the user out of `members` (a no-op when absent) and save. -/
def removeProjectMember (projects : List Project) (pid : ProjectId)
    (uid : UserId) (memberId : UserId) :
    Except ApiError (List Project × Project) :=
  match findProject projects pid with
  | none => .error .NotFound
  | some project =>
    if !(project.owner == uid) then .error .Forbidden
    else
      let updated :=
        { project with
          members := project.members.filter (fun m => !(m == memberId)) }
      .ok (saveProject projects updated, updated)

/-- The combined document store the task controller touches. -/
structure Db where
  projects : List Project
  tasks : List Task
deriving DecidableEq, Repr

/-- `getTaskById` (taskController.js): 404 when the task is absent; then
`Project.findById(task.project)` is dereferenced with no null check, so a
dangling project reference throws and the catch block answers 500
(`InfrastructureError`); otherwise 403 unless owner or member. -/
def getTaskById (db : Db) (tid : TaskId) (uid : UserId) :
    Except ApiError Task :=
  match findTask db.tasks tid with
  | none => .error .NotFound
  | some task =>
    match findProject db.projects task.project with
    | none => .error .InfrastructureError
    | some project =>
      if !(project.owner == uid) && !(project.members.contains uid) then
        .error .Forbidden
      else
        .ok task

/-- The body of a task update request (all fields optional). -/
structure TaskPatch where
  title : Option String
  description : Option String
  status : Option String
  priority : Option String
  dueDate : Option String
  assignedTo : Option UserId
deriving DecidableEq, Repr

/-- `updateTask`: 404 when the task is absent, 500 on a dangling project
reference, 403 unless owner or member, otherwise merge-patch with `||`
and save.  `project` and `createdBy` are never assigned. -/
def updateTask (db : Db) (tid : TaskId) (uid : UserId) (patch : TaskPatch) :
    Except ApiError (Db × Task) :=
  match findTask db.tasks tid with
  | none => .error .NotFound
  | some task =>
    match findProject db.projects task.project with
    | none => .error .InfrastructureError
    | some project =>
      if !(project.owner == uid) && !(project.members.contains uid) then
        .error .Forbidden
      else
        let updated : Task :=
          { task with
            title := jsOrStr patch.title task.title
            description := jsOrStr patch.description task.description
            status := jsOrStr patch.status task.status
            priority := jsOrStr patch.priority task.priority
            dueDate := jsOrOptStr patch.dueDate task.dueDate
            assignedTo :=
              match patch.assignedTo with
              | some u => some u
              | none => task.assignedTo }
        .ok (⟨db.projects, saveTask db.tasks updated⟩, updated)

/-- `deleteTask`: 404 when absent, 500 on a dangling project reference,
403 unless the requester is the project owner (members cannot delete),
otherwise the task is removed. -/
def deleteTask (db : Db) (tid : TaskId) (uid : UserId) :
    Except ApiError Db :=
  match findTask db.tasks tid with
  | none => .error .NotFound
  | some task =>
    match findProject db.projects task.project with
    | none => .error .InfrastructureError
    | some project =>
      if !(project.owner == uid) then .error .Forbidden
      else .ok ⟨db.projects, db.tasks.filter (fun u => !(u.id == tid))⟩

/-- `addComment`: 404 when absent, 500 on a dangling project reference,
403 unless owner or member, otherwise push one comment with the requester
as author and save. -/
def addComment (db : Db) (tid : TaskId) (uid : UserId) (text : String) :
    Except ApiError (Db × Task) :=
  match findTask db.tasks tid with
  | none => .error .NotFound
  | some task =>
    match findProject db.projects task.project with
    | none => .error .InfrastructureError
    | some project =>
      if !(project.owner == uid) && !(project.members.contains uid) then
        .error .Forbidden
      else
        let updated := { task with comments := task.comments ++ [⟨text, uid⟩] }
        .ok (⟨db.projects, saveTask db.tasks updated⟩, updated)

/-- A registration request body (the `role` field is optional). -/
structure RegisterRequest where
  username : String
  email : String
  password : String
  firstName : String
  lastName : String
  role : Option String
deriving DecidableEq, Repr

/-- `register` (auth controller): 400 when some stored user has the same
email or the same username, otherwise create the user; the stored role is
"admin" exactly when the request's role is the string "admin". -/
def register (users : List User) (newId : UserId) (req : RegisterRequest) :
    Except ApiError (List User × User) :=
  if users.any (fun u => u.email == req.email || u.username == req.username) then
    .error .DuplicateIdentity
  else
    let userRole := if req.role == some "admin" then "admin" else "user"
    let user : User :=
      ⟨newId, req.username, req.email, req.password, req.firstName,
        req.lastName, userRole⟩
    .ok (users ++ [user], user)

/-- Does an `Except` result carry a success? -/
def exceptOk {ε α : Type} : Except ε α → Bool
  | .ok _ => true
  | .error _ => false

/-- The project store after an operation that saves on success: an error
return leaves the store as it was. -/
def projectsAfter (projects : List Project)
    (r : Except ApiError (List Project × Project)) : List Project :=
  match r with
  | .ok (ps, _) => ps
  | .error _ => projects

/-- The project store after a delete. -/
def projectsAfterDelete (projects : List Project)
    (r : Except ApiError (List Project)) : List Project :=
  match r with
  | .ok ps => ps
  | .error _ => projects

/-- The user store after a registration attempt. -/
def usersAfter (users : List User) (r : Except ApiError (List User × User)) :
    List User :=
  match r with
  | .ok (us, _) => us
  | .error _ => users

/-- Fixture: a project owned by user 10 with members 11 and 12. -/
def exProject : Project :=
  ⟨1, "alpha", "demo", "active", none, none, 10, [11, 12]⟩

/-- Fixture: a task under `exProject`, created by member 11. -/
def exTask : Task :=
  ⟨5, "t", "d", "pending", "medium", none, none, 1, 11, [⟨"hi", 10⟩]⟩

/-- Fixture: store holding `exProject` and `exTask`. -/
def exDb : Db := ⟨[exProject], [exTask]⟩

/-- Fixture: a task whose project id 99 matches no stored project. -/
def exDanglingTask : Task :=
  ⟨6, "t2", "d2", "pending", "low", none, none, 99, 10, []⟩

/-- Fixture: store where `exDanglingTask` has a dangling project
reference. -/
def exDanglingDb : Db := ⟨[exProject], [exDanglingTask]⟩

/-- Fixture: an empty project patch. -/
def exProjectPatch : ProjectPatch := ⟨none, none, none, none, none, none⟩

/-- Fixture: an empty task patch. -/
def exTaskPatch : TaskPatch := ⟨none, none, none, none, none, none⟩

/-- Fixture: a first registration request. -/
def exRegA : RegisterRequest := ⟨"alice", "a@x.com", "pw", "A", "L", none⟩

/-- Fixture: a second request reusing the email of `exRegA`. -/
def exRegB : RegisterRequest := ⟨"bob", "a@x.com", "pw2", "B", "L", none⟩

/-- Fixture: the user `register` stores for `exRegA`. -/
def exUserA : User := ⟨1, "alice", "a@x.com", "pw", "A", "L", "user"⟩

/-- The authorization test both controllers inline:
`project.owner !== uid && !project.members.includes(uid)` is false exactly
on owners and members. -/
theorem accessCond_false (P : Project) (uid : UserId)
    (h : P.owner = uid ∨ uid ∈ P.members) :
    (!(P.owner == uid) && !(P.members.contains uid)) = false := by
  rcases h with h | h <;> simp [h]

/-- The same test is true exactly on requesters with no access. -/
theorem accessCond_true (P : Project) (uid : UserId)
    (h : ¬(P.owner = uid ∨ uid ∈ P.members)) :
    (!(P.owner == uid) && !(P.members.contains uid)) = true := by
  push_neg at h
  simp [h.1, h.2]

/-- The ownership test used by every owner-gated operation. -/
theorem ownerCond_false (P : Project) (uid : UserId) (h : ¬ P.owner = uid) :
    (P.owner == uid) = false := by
  simp [h]

/-- A guarded operation succeeds exactly when its guard is down. -/
theorem exceptOk_ite_error {α : Type} (b : Bool) (e : ApiError) (a : α) :
    exceptOk (if b then Except.error e else Except.ok a) = true ↔
      b = false := by
  cases b <;> simp [exceptOk]

/-- A guarded operation fails with its guard error when the guard is up. -/
theorem ite_error_of_true {α : Type} (b : Bool) (e : ApiError) (a : α)
    (h : b = true) :
    (if b then Except.error e else Except.ok a) = Except.error e := by
  simp [h]

/-- C1: for a stored project, `getProjectById` with a well-formed id
succeeds returning the project exactly when the requester is the owner or
a member, and fails Forbidden otherwise; when no project carries the id
the result is NotFound for every requester, so the existence check comes
before the authorization check. -/
theorem C1_getProjectById_access (projects : List Project) (pid : ProjectId)
    (uid : UserId) :
    (∀ P, findProject projects pid = some P →
      ((getProjectById projects (RawId.valid pid) uid = .ok P ↔
          P.owner = uid ∨ uid ∈ P.members) ∧
        (¬(P.owner = uid ∨ uid ∈ P.members) →
          getProjectById projects (RawId.valid pid) uid =
            .error .Forbidden))) ∧
    (findProject projects pid = none →
      getProjectById projects (RawId.valid pid) uid = .error .NotFound) := by
  constructor
  · intro P hP
    constructor
    · simp [getProjectById, hP]
      tauto
    · intro hacc
      push_neg at hacc
      simp [getProjectById, hP]
      exact hacc
  · intro hnone
    simp [getProjectById, hnone]

/-- C1 at a concrete input: user 13 is neither owner nor member of the
stored project, so the lookup fails Forbidden. -/
theorem C1_getProjectById_access_witness :
    getProjectById [exProject] (RawId.valid 1) 13 = .error .Forbidden :=
  ((C1_getProjectById_access [exProject] 1 13).1 exProject (by decide)).2
    (by decide)

/-- C2: every owner-gated project mutation (update, delete, addMember,
removeMember) fails Forbidden for a requester other than the owner and
leaves the project store unchanged. -/
theorem C2_ownerOnly_mutations (projects : List Project) (pid : ProjectId)
    (uid newMember : UserId) (patch : ProjectPatch) (P : Project)
    (hP : findProject projects pid = some P) (hno : ¬ P.owner = uid) :
    updateProject projects pid uid patch = .error .Forbidden ∧
    deleteProject projects pid uid = .error .Forbidden ∧
    addProjectMember projects pid uid newMember = .error .Forbidden ∧
    removeProjectMember projects pid uid newMember = .error .Forbidden ∧
    projectsAfter projects (updateProject projects pid uid patch) =
      projects ∧
    projectsAfterDelete projects (deleteProject projects pid uid) =
      projects ∧
    projectsAfter projects (addProjectMember projects pid uid newMember) =
      projects ∧
    projectsAfter projects
      (removeProjectMember projects pid uid newMember) = projects := by
  refine ⟨?_, ?_, ?_, ?_, ?_, ?_, ?_, ?_⟩ <;>
    simp [updateProject, deleteProject, addProjectMember,
      removeProjectMember, projectsAfter, projectsAfterDelete, hP,
      ownerCond_false P uid hno]

/-- C2 at a concrete input: member 11 is not the owner, so updating the
project fails Forbidden. -/
theorem C2_ownerOnly_mutations_witness :
    updateProject [exProject] 1 11 exProjectPatch = .error .Forbidden :=
  (C2_ownerOnly_mutations [exProject] 1 11 12 exProjectPatch exProject
    (by decide) (by decide)).1

/-- C3: for a stored task under a stored project, get, update and
addComment succeed exactly when the requester is the project owner or a
member and fail Forbidden otherwise, while delete succeeds exactly for
the owner and fails Forbidden for every other requester — members and the
task's creator included. -/
theorem C3_task_authorization (db : Db) (tid : TaskId) (uid : UserId)
    (patch : TaskPatch) (text : String) (T : Task) (P : Project)
    (hT : findTask db.tasks tid = some T)
    (hP : findProject db.projects T.project = some P) :
    (exceptOk (getTaskById db tid uid) = true ↔
      P.owner = uid ∨ uid ∈ P.members) ∧
    (exceptOk (updateTask db tid uid patch) = true ↔
      P.owner = uid ∨ uid ∈ P.members) ∧
    (exceptOk (addComment db tid uid text) = true ↔
      P.owner = uid ∨ uid ∈ P.members) ∧
    (¬(P.owner = uid ∨ uid ∈ P.members) →
      getTaskById db tid uid = .error .Forbidden ∧
      updateTask db tid uid patch = .error .Forbidden ∧
      addComment db tid uid text = .error .Forbidden) ∧
    (exceptOk (deleteTask db tid uid) = true ↔ P.owner = uid) ∧
    (¬ P.owner = uid → deleteTask db tid uid = .error .Forbidden) := by
  refine ⟨?_, ?_, ?_, ?_, ?_, ?_⟩
  · simp only [getTaskById, hT, hP]
    rw [exceptOk_ite_error]
    simp
    tauto
  · simp only [updateTask, hT, hP]
    rw [exceptOk_ite_error]
    simp
    tauto
  · simp only [addComment, hT, hP]
    rw [exceptOk_ite_error]
    simp
    tauto
  · intro hacc
    have hb := accessCond_true P uid hacc
    refine ⟨?_, ?_, ?_⟩
    · simp only [getTaskById, hT, hP]
      exact ite_error_of_true _ _ _ hb
    · simp only [updateTask, hT, hP]
      exact ite_error_of_true _ _ _ hb
    · simp only [addComment, hT, hP]
      exact ite_error_of_true _ _ _ hb
  · simp only [deleteTask, hT, hP]
    rw [exceptOk_ite_error]
    simp
  · intro hno
    simp only [deleteTask, hT, hP]
    exact ite_error_of_true _ _ _ (by simp [hno])

/-- C3 at a concrete input: member 11 created the stored task but is not
the project owner, so deleting it fails Forbidden. -/
theorem C3_task_authorization_witness :
    deleteTask exDb 5 11 = .error .Forbidden :=
  (C3_task_authorization exDb 5 11 exTaskPatch "hello" exTask exProject
    rfl rfl).2.2.2.2.2 (by decide)

/-- C4: with the owner as requester, adding an already-present member
fails DuplicateMember and leaves the store unchanged, adding a new member
appends it to the member list, and removing a member always succeeds,
filtering it out — a no-op on the member list when the user was absent. -/
theorem C4_membership_changes (projects : List Project) (pid : ProjectId)
    (u : UserId) (P : Project) (hP : findProject projects pid = some P) :
    (u ∈ P.members →
      addProjectMember projects pid P.owner u = .error .DuplicateMember ∧
      projectsAfter projects (addProjectMember projects pid P.owner u) =
        projects) ∧
    (u ∉ P.members →
      addProjectMember projects pid P.owner u =
        .ok (saveProject projects { P with members := P.members ++ [u] },
          { P with members := P.members ++ [u] })) ∧
    (∃ Q, removeProjectMember projects pid P.owner u =
        .ok (saveProject projects Q, Q) ∧
      Q.members = P.members.filter (fun m => !(m == u))) ∧
    (u ∉ P.members →
      ∃ Q, removeProjectMember projects pid P.owner u =
          .ok (saveProject projects Q, Q) ∧
        Q.members = P.members) := by
  refine ⟨?_, ?_, ?_, ?_⟩
  · intro hmem
    refine ⟨?_, ?_⟩
    · simp [addProjectMember, hP, hmem]
    · simp [projectsAfter, addProjectMember, hP, hmem]
  · intro hmem
    simp [addProjectMember, hP, hmem]
  · refine ⟨{ P with members := P.members.filter (fun m => !(m == u)) },
      ?_, rfl⟩
    simp [removeProjectMember, hP]
  · intro hmem
    refine ⟨{ P with members := P.members.filter (fun m => !(m == u)) },
      ?_, ?_⟩
    · simp [removeProjectMember, hP]
    · show P.members.filter (fun m => !(m == u)) = P.members
      rw [List.filter_eq_self]
      intro a ha
      simp only [Bool.not_eq_true']
      exact beq_eq_false_iff_ne.mpr (fun h => hmem (h ▸ ha))

/-- C4 at a concrete input: user 11 is already a member, so the owner's
addMember fails DuplicateMember. -/
theorem C4_membership_changes_witness :
    addProjectMember [exProject] 1 10 11 = .error .DuplicateMember :=
  ((C4_membership_changes [exProject] 1 11 exProject rfl).1 (by decide)).1

/-- C5: once a registration has succeeded, a second registration carrying
the same email or the same username fails DuplicateIdentity and stores no
user. -/
theorem C5_duplicate_registration (users : List User) (id1 id2 : UserId)
    (r1 r2 : RegisterRequest) (users1 : List User) (u1 : User)
    (hfirst : register users id1 r1 = .ok (users1, u1))
    (hclash : r2.email = r1.email ∨ r2.username = r1.username) :
    register users1 id2 r2 = .error .DuplicateIdentity ∧
    usersAfter users1 (register users1 id2 r2) = users1 := by
  simp only [register] at hfirst
  split at hfirst
  · exact absurd hfirst (by simp)
  · simp only [Except.ok.injEq, Prod.mk.injEq] at hfirst
    obtain ⟨husers, -⟩ := hfirst
    have hany : (users1.any fun u =>
        u.email == r2.email || u.username == r2.username) = true := by
      subst husers
      simp [List.any_append]
      rcases hclash with h | h
      · simp [h]
      · simp [h]
    have hreg : register users1 id2 r2 = .error .DuplicateIdentity := by
      simp [register, hany]
    exact ⟨hreg, by simp [usersAfter, hreg]⟩

/-- C5 at a concrete input: after alice registers, bob's registration
with the same email fails DuplicateIdentity. -/
theorem C5_duplicate_registration_witness :
    register [exUserA] 2 exRegB = .error .DuplicateIdentity ∧
    usersAfter [exUserA] (register [exUserA] 2 exRegB) = [exUserA] :=
  C5_duplicate_registration [] 1 2 exRegA exRegB [exUserA] exUserA
    rfl (Or.inl rfl)

/-- C6: a successfully created user has role "admin" exactly when the
request's role field is the string "admin"; any other value or absence
yields role "user". -/
theorem C6_role_assignment (users : List User) (newId : UserId)
    (req : RegisterRequest) (users1 : List User) (u : User)
    (h : register users newId req = .ok (users1, u)) :
    (u.role = "admin" ↔ req.role = some "admin") ∧
    (req.role ≠ some "admin" → u.role = "user") := by
  simp only [register] at h
  split at h
  · exact absurd h (by simp)
  · simp only [Except.ok.injEq, Prod.mk.injEq] at h
    obtain ⟨-, hu⟩ := h
    by_cases hr : req.role = some "admin"
    · subst hu
      simp [hr]
    · have hbeq : (req.role == some "admin") = false := by
        simp [hr]
      subst hu
      simp [hbeq, hr]

/-- C6 at a concrete input: a registration with no role field yields role
"user". -/
theorem C6_role_assignment_witness :
    exUserA.role = "user" :=
  (C6_role_assignment [] 1 exRegA [exUserA] exUserA rfl).2
    (by decide)

/-- C7: a successful task update keeps the task's project reference and
createdBy field whatever the patch holds, and every falsy patch field
(absent, or an empty string) leaves the corresponding task field
unchanged — merge-patch, not replace. -/
theorem C7_updateTask_frame (db : Db) (tid : TaskId) (uid : UserId)
    (patch : TaskPatch) (db1 : Db) (T T1 : Task)
    (hT : findTask db.tasks tid = some T)
    (h : updateTask db tid uid patch = .ok (db1, T1)) :
    T1.project = T.project ∧ T1.createdBy = T.createdBy ∧ T1.id = T.id ∧
    ((patch.title = none ∨ patch.title = some "") → T1.title = T.title) ∧
    ((patch.description = none ∨ patch.description = some "") →
      T1.description = T.description) ∧
    ((patch.status = none ∨ patch.status = some "") →
      T1.status = T.status) ∧
    ((patch.priority = none ∨ patch.priority = some "") →
      T1.priority = T.priority) ∧
    ((patch.dueDate = none ∨ patch.dueDate = some "") →
      T1.dueDate = T.dueDate) ∧
    (patch.assignedTo = none → T1.assignedTo = T.assignedTo) := by
  rcases hPm : findProject db.projects T.project with _ | P
  · simp only [updateTask, hT, hPm] at h
    exact absurd h (by simp)
  · simp only [updateTask, hT, hPm] at h
    split at h
    · exact absurd h (by simp)
    · simp only [Except.ok.injEq, Prod.mk.injEq] at h
      obtain ⟨-, hT1⟩ := h
      subst hT1
      refine ⟨rfl, rfl, rfl, ?_, ?_, ?_, ?_, ?_, ?_⟩
      · rintro (hp | hp) <;> simp [jsOrStr, hp]
      · rintro (hp | hp) <;> simp [jsOrStr, hp]
      · rintro (hp | hp) <;> simp [jsOrStr, hp]
      · rintro (hp | hp) <;> simp [jsOrStr, hp]
      · rintro (hp | hp) <;> simp [jsOrOptStr, hp]
      · intro hp
        simp [hp]

/-- C7 at a concrete input: the owner updates the stored task with an
all-empty patch, and the title stays what it was. -/
theorem C7_updateTask_frame_witness :
    exTask.title = exTask.title :=
  (C7_updateTask_frame exDb 5 10 exTaskPatch exDb exTask exTask rfl
    rfl).2.2.2.1 (Or.inl rfl)

/-- C8: a successful addComment yields exactly the previous comment
sequence with one comment (the given text, authored by the requester)
appended at the end. -/
theorem C8_addComment_append (db : Db) (tid : TaskId) (uid : UserId)
    (text : String) (db1 : Db) (T T1 : Task)
    (hT : findTask db.tasks tid = some T)
    (h : addComment db tid uid text = .ok (db1, T1)) :
    T1.comments = T.comments ++ [⟨text, uid⟩] := by
  rcases hPm : findProject db.projects T.project with _ | P
  · simp only [addComment, hT, hPm] at h
    exact absurd h (by simp)
  · simp only [addComment, hT, hPm] at h
    split at h
    · exact absurd h (by simp)
    · simp only [Except.ok.injEq, Prod.mk.injEq] at h
      obtain ⟨-, hT1⟩ := h
      subst hT1
      rfl

/-- C8 at a concrete input: member 11 comments on the stored task and
the new comment list is the old one plus that comment. -/
theorem C8_addComment_append_witness :
    ({ exTask with comments := exTask.comments ++ [⟨"yo", 11⟩] } :
        Task).comments =
      exTask.comments ++ [⟨"yo", 11⟩] :=
  C8_addComment_append exDb 5 11 "yo"
    ⟨[exProject],
      saveTask [exTask]
        { exTask with comments := exTask.comments ++ [⟨"yo", 11⟩] }⟩
    exTask { exTask with comments := exTask.comments ++ [⟨"yo", 11⟩] }
    rfl rfl

/-- C9 as stated is false at a concrete input: a malformed project id
makes `getProjectById` answer 400 Invalid project ID format
(`ValidationError`), not 404 NotFound. -/
theorem C9_counterexample :
    getProjectById [exProject] (RawId.malformed "zzz") 10 =
      .error .ValidationError ∧
    getProjectById [exProject] (RawId.malformed "zzz") 10 ≠
      .error .NotFound := by
  refine ⟨rfl, ?_⟩
  simp [getProjectById]

/-- C9 amended: a malformed project id fails with the 400
`ValidationError` for every requester and store, while a well-formed id
matching no stored project fails NotFound. -/
theorem C9_amended_malformed_id (projects : List Project) (uid : UserId)
    (s : String) (pid : ProjectId) :
    getProjectById projects (RawId.malformed s) uid =
      .error .ValidationError ∧
    (findProject projects pid = none →
      getProjectById projects (RawId.valid pid) uid =
        .error .NotFound) := by
  constructor
  · rfl
  · intro hnone
    simp [getProjectById, hnone]

/-- C9 amended, at concrete inputs: malformed id gives ValidationError
on an empty store, and a valid unmatched id gives NotFound. -/
theorem C9_amended_malformed_id_witness :
    getProjectById [] (RawId.malformed "zzz") 7 =
      .error .ValidationError ∧
    getProjectById [] (RawId.valid 3) 7 = .error .NotFound :=
  ⟨(C9_amended_malformed_id [] 7 "zzz" 3).1,
    (C9_amended_malformed_id [] 7 "zzz" 3).2 rfl⟩

/-- C10: when a stored task's project id matches no stored project, get,
update, delete, and addComment all surface the 500-equivalent
`InfrastructureError` (the controller dereferences the missing project's
owner with no null check), never NotFound or Forbidden. -/
theorem C10_dangling_project (db : Db) (tid : TaskId) (uid : UserId)
    (patch : TaskPatch) (text : String) (T : Task)
    (hT : findTask db.tasks tid = some T)
    (hdangle : findProject db.projects T.project = none) :
    getTaskById db tid uid = .error .InfrastructureError ∧
    updateTask db tid uid patch = .error .InfrastructureError ∧
    deleteTask db tid uid = .error .InfrastructureError ∧
    addComment db tid uid text = .error .InfrastructureError := by
  refine ⟨?_, ?_, ?_, ?_⟩ <;>
    simp only [getTaskById, updateTask, deleteTask, addComment, hT,
      hdangle]

/-- C10 at a concrete input: reading the task whose project id 99 is
dangling yields InfrastructureError. -/
theorem C10_dangling_project_witness :
    getTaskById exDanglingDb 6 10 = .error .InfrastructureError :=
  (C10_dangling_project exDanglingDb 6 10 exTaskPatch "x" exDanglingTask
    rfl rfl).1

end GestionTareas
